import Mathlib

/-
  Verification of the InstanceFactoryInfo descriptor of the Qtilities Core
  library (src/Core/source/IFactoryProvider.h).

  The descriptor carries three QString fields and two serialization codecs.
  QDataStream is modelled at the granularity of the items Qt writes and reads
  here (32-bit unsigned integers and QStrings): each `stream <<` in
  exportBinary appends one item, each `stream >>` in importBinary consumes
  one item of the matching kind.  A read of the wrong kind, or past the end
  of the stream, is outside this item-level model and is represented by
  `none`; every stream considered by the properties below is well formed at
  the item level, so this branch is never reached in any theorem.

  QString is modelled as a Lean String.  Qt's null string and its empty
  string both satisfy isEmpty and compare equal, so they collapse to "".
-/

namespace Qtilities

abbrev QString := String

/-- One item written to / read from a QDataStream: a 32-bit unsigned
integer or a QString. -/
inductive StreamItem : Type
  | u32 : Nat → StreamItem
  | qstr : QString → StreamItem
  deriving DecidableEq, Repr

abbrev QDataStream := List StreamItem

/-- Model of `stream << (quint32) n`: Qt truncates the value to 32 bits. -/
def writeU32 (stream : QDataStream) (n : Nat) : QDataStream :=
  stream ++ [StreamItem.u32 (n % 2 ^ 32)]

/-- Model of `stream << s` for a QString. -/
def writeQString (stream : QDataStream) (s : QString) : QDataStream :=
  stream ++ [StreamItem.qstr s]

/-- Model of `stream >> ui32`: consume one u32 item.  `none` when the next
item is not a u32 at the item level. -/
def readU32 : QDataStream → Option (Nat × QDataStream)
  | StreamItem.u32 n :: rest => some (n, rest)
  | _ => none

/-- Model of `stream >> s` for a QString: consume one string item. -/
def readQString : QDataStream → Option (QString × QDataStream)
  | StreamItem.qstr s :: rest => some (s, rest)
  | _ => none

/-- The InstanceFactoryInfo struct (IFactoryProvider.h, lines 69-152):
three public QString fields. -/
structure InstanceFactoryInfo where
  d_factory_tag : QString
  d_instance_tag : QString
  d_instance_name : QString
  deriving DecidableEq, Repr

namespace InstanceFactoryInfo

/-- The parameterless constructor `InstanceFactoryInfo()` (lines 71-75):
all three fields set to the default QString. -/
def mkEmpty : InstanceFactoryInfo :=
  { d_factory_tag := ""
    d_instance_tag := ""
    d_instance_name := "" }

/-- The constructor `InstanceFactoryInfo(const QString&, const QString&,
const QString& = QString())` (lines 86-90): stores the given fields,
performing no validation.  The source defaults instance_name to the empty
QString; callers of the two-argument form pass "" here. -/
def mkTags (factory_tag instance_tag instance_name : QString) :
    InstanceFactoryInfo :=
  { d_factory_tag := factory_tag
    d_instance_tag := instance_tag
    d_instance_name := instance_name }

/-- `isValid()` (lines 138-144): false when `d_factory_tag` is empty, false
when `d_instance_tag` is empty, true otherwise. -/
def isValid (d : InstanceFactoryInfo) : Bool :=
  if d.d_factory_tag.isEmpty then false
  else if d.d_instance_tag.isEmpty then false
  else true

/-- `exportBinary(QDataStream&)` (lines 101-108): writes the start marker
`(quint32) 0xDDDDDDDD`, then `d_factory_tag`, `d_instance_name`,
`d_instance_tag`, then the end marker `(quint32) 0xDDDDDDDD`, and returns
true.  The Bool is the return value; the stream is passed in and the
extended stream returned, modelling the reference parameter. -/
def exportBinary (d : InstanceFactoryInfo) (stream : QDataStream) :
    Bool × QDataStream :=
  let s1 := writeU32 stream 0xDDDDDDDD
  let s2 := writeQString s1 d.d_factory_tag
  let s3 := writeQString s2 d.d_instance_name
  let s4 := writeQString s3 d.d_instance_tag
  let s5 := writeU32 s4 0xDDDDDDDD
  (true, s5)

/-- `importBinary(QDataStream&)` (lines 109-125): reads a quint32 and
returns false if it is not 0xDDDDDDDD; otherwise reads `d_factory_tag`,
`d_instance_name`, `d_instance_tag` (overwriting the fields as each read
completes), reads a trailing quint32 and returns false if it is not
0xDDDDDDDD, else returns true.  The result is the returned Bool, the
descriptor after the member writes, and the remaining stream; `none` marks
a stream malformed at the item level (not reached by any property here). -/
def importBinary (d : InstanceFactoryInfo) (stream : QDataStream) :
    Option (Bool × InstanceFactoryInfo × QDataStream) :=
  match readU32 stream with
  | none => none
  | some (ui32, s1) =>
    if ui32 ≠ 0xDDDDDDDD then
      some (false, d, s1)
    else
      match readQString s1 with
      | none => none
      | some (ft, s2) =>
        let d1 := { d with d_factory_tag := ft }
        match readQString s2 with
        | none => none
        | some (nm, s3) =>
          let d2 := { d1 with d_instance_name := nm }
          match readQString s3 with
          | none => none
          | some (tg, s4) =>
            let d3 := { d2 with d_instance_tag := tg }
            match readU32 s4 with
            | none => none
            | some (ui32e, s5) =>
              if ui32e ≠ 0xDDDDDDDD then
                some (false, d3, s5)
              else
                some (true, d3, s5)

/-- The constructor `InstanceFactoryInfo(QDataStream& stream)` (lines
76-78): the QString members are default-constructed (empty), then the body
calls `importBinary(stream)` and discards its Bool return value. -/
def mkFromStream (stream : QDataStream) :
    Option (InstanceFactoryInfo × QDataStream) :=
  match importBinary mkEmpty stream with
  | some (_, d, s) => some (d, s)
  | none => none

end InstanceFactoryInfo

/-- An XML element's attribute set, as name-value pairs. -/
abbrev QDomElement := List (String × String)

/-- Modelled from the spec: the documented fixed default factory-tag
literal substituted by `importXML` when the factory-tag attribute is
absent.  The definition of this constant is not under src/; the header's
doc comment (line 133) calls it the Qtilities factory tag. -/
def qti_def_FACTORY_TAG : String := "Qtilities"

/-- Modelled from the spec: the body of `InstanceFactoryInfo::importXML`
(declared at line 135 of IFactoryProvider.h) is not under src/.  Per the
spec it reads the three fields from the element's attributes, substitutes
`qti_def_FACTORY_TAG` when the factory-tag attribute is absent rather than
failing, and returns success for readable elements; missing optional
attributes leave their fields empty. -/
def InstanceFactoryInfo.importXML (d : InstanceFactoryInfo)
    (object_node : QDomElement) : Bool × InstanceFactoryInfo :=
  let ft := match object_node.lookup "FactoryTag" with
    | some v => v
    | none => qti_def_FACTORY_TAG
  let tg := match object_node.lookup "InstanceTag" with
    | some v => v
    | none => ""
  let nm := match object_node.lookup "InstanceName" with
    | some v => v
    | none => ""
  (true, { d with d_factory_tag := ft, d_instance_tag := tg,
                  d_instance_name := nm })

end Qtilities

namespace Qtilities

open InstanceFactoryInfo

/-- Claim C1: for every valid descriptor d (factoryTag and instanceTag both
non-empty), decoding the binary stream produced by encoding d succeeds and
yields a descriptor whose factoryTag, instanceTag and instanceName equal
those of d field-for-field, whatever the decoder's prior field values. -/
theorem binary_round_trip (d d0 : InstanceFactoryInfo)
    (h : d.isValid = true) :
    importBinary d0 (d.exportBinary []).2 = some (true, d, []) := rfl

/-- Witness for C1 at the spec's scenario descriptor. -/
theorem binary_round_trip_witness :
    (mkTags "Qtilities.ObserverFactory" "Observer" "MyObserver").isValid
        = true ∧
    importBinary mkEmpty
        ((mkTags "Qtilities.ObserverFactory" "Observer"
          "MyObserver").exportBinary []).2 =
      some (true, mkTags "Qtilities.ObserverFactory" "Observer"
        "MyObserver", []) :=
  ⟨by decide,
   binary_round_trip (mkTags "Qtilities.ObserverFactory" "Observer"
     "MyObserver") mkEmpty (by decide)⟩

/-- Claim C2: isValid d is true iff d_factory_tag and d_instance_tag are
both non-empty, and the value of d_instance_name never affects the
result. -/
theorem isValid_law (d : InstanceFactoryInfo) (n : QString) :
    (d.isValid = true ↔
      (d.d_factory_tag ≠ "" ∧ d.d_instance_tag ≠ "")) ∧
    ({ d with d_instance_name := n } : InstanceFactoryInfo).isValid
      = d.isValid := by
  refine ⟨?_, rfl⟩
  simp [isValid, String.isEmpty_iff]

/-- Claim C3: for every descriptor d and prior stream contents, binary
encoding appends exactly, in order, a 32-bit 0xDDDDDDDD sentinel, the
factory tag, the instance name, the instance tag, and another 32-bit
0xDDDDDDDD sentinel, and returns success unconditionally. -/
theorem exportBinary_layout (d : InstanceFactoryInfo)
    (stream : QDataStream) :
    d.exportBinary stream =
      (true, stream ++
        [StreamItem.u32 0xDDDDDDDD, StreamItem.qstr d.d_factory_tag,
         StreamItem.qstr d.d_instance_name,
         StreamItem.qstr d.d_instance_tag,
         StreamItem.u32 0xDDDDDDDD]) := by
  simp [exportBinary, writeU32, writeQString]

/-- Claim C4: if the first 32-bit value of the input is not 0xDDDDDDDD,
binary decoding returns failure and all three fields retain their prior
values. -/
theorem importBinary_bad_start (d : InstanceFactoryInfo) (n : Nat)
    (rest : QDataStream) (h : n ≠ 0xDDDDDDDD) :
    d.importBinary (StreamItem.u32 n :: rest) = some (false, d, rest) := by
  simp [importBinary, readU32, h]

/-- Witness for C4: a stream whose first 32-bit value is 0. -/
theorem importBinary_bad_start_witness :
    (0 : Nat) ≠ 0xDDDDDDDD ∧
    mkEmpty.importBinary [StreamItem.u32 0] =
      some (false, mkEmpty, []) :=
  ⟨by decide, importBinary_bad_start mkEmpty 0 [] (by decide)⟩

/-- Claim C5: a stream with a valid 0xDDDDDDDD start sentinel, three
well-formed strings and a trailing 32-bit value other than 0xDDDDDDDD
makes binary decoding return failure. -/
theorem importBinary_bad_end (d : InstanceFactoryInfo) (a b c : QString)
    (m : Nat) (rest : QDataStream) (h : m ≠ 0xDDDDDDDD) :
    (d.importBinary (StreamItem.u32 0xDDDDDDDD :: StreamItem.qstr a ::
        StreamItem.qstr b :: StreamItem.qstr c :: StreamItem.u32 m ::
        rest)).map (fun r => r.1) = some false := by
  simp [importBinary, readU32, readQString, h]

/-- Witness for C5: end marker 0 after three well-formed strings. -/
theorem importBinary_bad_end_witness :
    (0 : Nat) ≠ 0xDDDDDDDD ∧
    (mkEmpty.importBinary [StreamItem.u32 0xDDDDDDDD,
        StreamItem.qstr "F", StreamItem.qstr "N", StreamItem.qstr "T",
        StreamItem.u32 0]).map (fun r => r.1) = some false :=
  ⟨by decide, importBinary_bad_end mkEmpty "F" "N" "T" 0 [] (by decide)⟩

/-- Claim C6: the parameterless constructor yields a descriptor whose
three fields are all empty, and isValid on that descriptor is false. -/
theorem mkEmpty_invalid :
    mkEmpty.d_factory_tag = "" ∧ mkEmpty.d_instance_tag = "" ∧
    mkEmpty.d_instance_name = "" ∧ mkEmpty.isValid = false := by
  refine ⟨rfl, rfl, rfl, rfl⟩

/-- Claim C7: construction from explicit tags performs no validation: the
descriptor built from an empty factory tag and instance tag "Observer" has
isValid false, yet encoding it returns success and decoding that output
succeeds and reproduces the same field values. -/
theorem mkTags_no_validation :
    (mkTags "" "Observer" "").isValid = false ∧
    ((mkTags "" "Observer" "").exportBinary []).1 = true ∧
    importBinary mkEmpty ((mkTags "" "Observer" "").exportBinary []).2 =
      some (true, mkTags "" "Observer" "", []) := by
  refine ⟨rfl, rfl, rfl⟩

/-- Claim C8: for every XML element lacking the factory-tag attribute, XML
decoding returns success and the resulting factory tag equals the fixed
default literal. -/
theorem importXML_default_factory_tag (d : InstanceFactoryInfo)
    (node : QDomElement) (h : node.lookup "FactoryTag" = none) :
    (d.importXML node).1 = true ∧
    (d.importXML node).2.d_factory_tag = qti_def_FACTORY_TAG := by
  refine ⟨rfl, ?_⟩
  simp [importXML, h]

/-- Witness for C8: an element with no attributes at all. -/
theorem importXML_default_factory_tag_witness :
    ([] : QDomElement).lookup "FactoryTag" = none ∧
    ((mkEmpty.importXML []).1 = true ∧
      (mkEmpty.importXML []).2.d_factory_tag = qti_def_FACTORY_TAG) :=
  ⟨rfl, importXML_default_factory_tag mkEmpty [] rfl⟩

/-- Claim C9: when binary decoding fails on the end-marker check (valid
start sentinel, three well-formed strings, trailing value not 0xDDDDDDDD),
the three fields are nevertheless fully overwritten with the strings read
from the stream: the failed decode leaves exactly the decoded values in
place. -/
theorem importBinary_bad_end_overwrites (d : InstanceFactoryInfo)
    (a b c : QString) (m : Nat) (rest : QDataStream)
    (h : m ≠ 0xDDDDDDDD) :
    d.importBinary (StreamItem.u32 0xDDDDDDDD :: StreamItem.qstr a ::
        StreamItem.qstr b :: StreamItem.qstr c :: StreamItem.u32 m ::
        rest) =
      some (false,
        { d_factory_tag := a, d_instance_tag := c, d_instance_name := b },
        rest) := by
  simp [importBinary, readU32, readQString, h]

/-- Witness for C9: the fields F, N, T from the stream replace the prior
values even though decoding fails on end marker 0. -/
theorem importBinary_bad_end_overwrites_witness :
    (0 : Nat) ≠ 0xDDDDDDDD ∧
    (mkTags "old1" "old2" "old3").importBinary
        [StreamItem.u32 0xDDDDDDDD, StreamItem.qstr "F",
         StreamItem.qstr "N", StreamItem.qstr "T", StreamItem.u32 0] =
      some (false,
        { d_factory_tag := "F", d_instance_tag := "T",
          d_instance_name := "N" }, []) :=
  ⟨by decide,
   importBinary_bad_end_overwrites (mkTags "old1" "old2" "old3")
     "F" "N" "T" 0 [] (by decide)⟩

/-- Claim C10: the constructor taking a binary stream delegates to binary
decoding but discards its status; for every stream whose first 32-bit
value is not 0xDDDDDDDD, the constructed descriptor has all three fields
empty and isValid false, and the caller cannot observe the failure. -/
theorem mkFromStream_discards_failure (n : Nat) (rest : QDataStream)
    (h : n ≠ 0xDDDDDDDD) :
    mkFromStream (StreamItem.u32 n :: rest) = some (mkEmpty, rest) ∧
    mkEmpty.isValid = false := by
  refine ⟨?_, rfl⟩
  simp [mkFromStream, importBinary, readU32, h]

/-- Witness for C10: a stream starting with the 32-bit value 7. -/
theorem mkFromStream_discards_failure_witness :
    (7 : Nat) ≠ 0xDDDDDDDD ∧
    (mkFromStream [StreamItem.u32 7] = some (mkEmpty, []) ∧
      mkEmpty.isValid = false) :=
  ⟨by decide, mkFromStream_discards_failure 7 [] (by decide)⟩

end Qtilities
